import Mathlib

/-!
Verification development for the Stock-Tracker quote server (src/server.js).

The server fronts a rate-limited upstream quote provider with:
  * a quote cache (Map keyed by uppercase symbol, entries carry a timestamp),
  * a request coalescer (activeRequests map: at most one in-flight handle per symbol),
  * a bounded FIFO dispatch queue drained by a single worker (processQueue),
  * a per-minute request counter with a periodic reset timer,
  * a layered fallback chain in the GET /api/stock/:symbol handler.

Times are modelled as Nat milliseconds (Date.now()); subtractions that can be
negative in JS are carried out in Int. Money fields are modelled as Int (the
toFixed / toLocaleDateString string formatting is presentation-only I/O glue
and is not modelled). JS truthiness of the fields used by the code is modelled
explicitly where the code relies on it.
-/

/-- CACHE_DURATION = 300000 ms (5 minutes), src/server.js line 11. -/
def CACHE_DURATION : Nat := 300000

/-- STALE_CACHE_DURATION = 3600000 ms (1 hour), src/server.js line 12. -/
def STALE_CACHE_DURATION : Nat := 3600000

/-- MAX_REQUESTS_PER_MINUTE = 50, src/server.js line 18. -/
def MAX_REQUESTS_PER_MINUTE : Nat := 50

/-- REQUEST_INTERVAL = 60000 / MAX_REQUESTS_PER_MINUTE = 1200 ms, src/server.js line 19. -/
def REQUEST_INTERVAL : Nat := 60000 / MAX_REQUESTS_PER_MINUTE

/-- MAX_QUEUE_SIZE = 100, src/server.js line 20. -/
def MAX_QUEUE_SIZE : Nat := 100

/-- The raw upstream payload (finnhub quote endpoint): fields c (current price),
d (change), dp (percent change), v (volume), t (source timestamp). Fields the
upstream may omit are Options; the code reads them with JS truthiness
(data.c) and the or-default idiom (data.d || 0). -/
structure RawQuote where
  c : Option Int
  d : Option Int
  dp : Option Int
  v : Option Int
  t : Nat
deriving DecidableEq, Repr

/-- JS truthiness test the handler applies to the upstream price:
data.c && data.c !== 0 (src/server.js line 139). The c field is falsy when
absent (undefined) or zero. -/
def cTruthy (q : RawQuote) : Bool :=
  match q.c with
  | none => false
  | some x => x != 0

/-- The stockData record built by the handler (src/server.js lines 140-147) and
also the shape of the layer-4 mock payload. price = none models the mock
payload's price: 'N/A'; mock models the _mock key, which is present (true)
only on the layer-4 payload and absent (falsy) on real data. -/
structure StockData where
  symbol : String
  price : Option Int
  change : Int
  changePercent : Int
  volume : Int
  lastUpdated : Nat
  mock : Bool
deriving DecidableEq, Repr

/-- A cache entry: cache.set(symbol, \x7b data, timestamp: Date.now() \x7d)
(src/server.js line 149). -/
structure CacheEntry where
  data : StockData
  timestamp : Nat
deriving DecidableEq, Repr

/-- The cache Map, as an association list keyed by symbol. -/
abbrev Cache := List (String × CacheEntry)

/-- Map.get: first binding for the symbol, if any. -/
def cacheGet (c : Cache) (symbol : String) : Option CacheEntry :=
  match c with
  | [] => none
  | (s, e) :: rest => if s = symbol then some e else cacheGet rest symbol

/-- Map.set: overwrite the binding for the symbol. -/
def cacheSet (c : Cache) (symbol : String) (e : CacheEntry) : Cache :=
  match c with
  | [] => [(symbol, e)]
  | (s, e0) :: rest =>
      if s = symbol then (s, e) :: rest else (s, e0) :: cacheSet rest symbol e

/-- Error outcomes with which the awaited queueApiRequest promise can settle:
queue full (line 94), the caller-side timeout (line 98), missing API key
(line 61), and the axios failure path (line 77) which covers both provider
errors and the 5000 ms per-call upstream timeout. -/
inductive FetchErr where
  | queueFull
  | requestTimeout
  | apiKeyMissing
  | upstreamError
  | upstreamTimeout
deriving DecidableEq, Repr

/-- What the endpoint sends. ok d is res.status(200).json(d); serverError is
the 500 of the outer catch (src/server.js line 181), reachable only from an
internal exception - the modelled handler body is total, so the model never
produces it, matching the code in which the four layers themselves throw
nothing. -/
inductive Response where
  | ok (data : StockData)
  | serverError
deriving DecidableEq, Repr

/-- JS String.prototype.toUpperCase on the ticker alphabet: uppercase every
character. -/
def jsToUpper (s : String) : String := String.mk (s.data.map Char.toUpper)

/-- Symbol normalisation at the top of the handler (src/server.js line 123):
req.params.symbol ? req.params.symbol.toUpperCase() : 'TSLA'. A JS string is
falsy exactly when empty, so an empty (or absent) symbol becomes 'TSLA'. -/
def symbolOf (raw : String) : String :=
  if raw = "" then "TSLA" else jsToUpper raw

/-- stockData built from a truthy upstream payload (src/server.js lines
140-147): price = data.c, change = data.d || 0, changePercent = data.dp || 0,
volume = data.v || 0, lastUpdated from data.t. (For these fields the JS
x || 0 default agrees with Option.getD 0 since 0 || 0 is 0.) -/
def buildStockData (symbol : String) (q : RawQuote) : StockData :=
  { symbol := symbol
    price := some (q.c.getD 0)
    change := q.d.getD 0
    changePercent := q.dp.getD 0
    volume := q.v.getD 0
    lastUpdated := q.t
    mock := false }

/-- The layer-4 mock payload (src/server.js lines 166-174): price 'N/A'
(none), zero change fields, current date, _mock: true. -/
def mockStockData (symbol : String) (now : Nat) : StockData :=
  { symbol := symbol
    price := none
    change := 0
    changePercent := 0
    volume := 0
    lastUpdated := now
    mock := true }

/-- Result of one run of the GET /api/stock/:symbol handler body:
the response (none when the awaited promise never settles, in which case the
request never completes), the cache afterwards, and whether the live-fetch
step (layer 2, the await of queueApiRequest) was entered; when it is not
entered the coalescer, queue and limiter are untouched, since the handler
reaches them only through queueApiRequest. -/
structure HandlerResult where
  response : Option Response
  cache : Cache
  liveFetchAttempted : Bool
deriving DecidableEq, Repr

/-- Layers 3 and 4 of the handler (src/server.js lines 158-175): serve the
stale entry when the lookup made once at line 130 is younger than
STALE_CACHE_DURATION, else the mock payload; neither writes the cache. -/
def fallbackLayers (c : Cache) (now : Nat) (symbol : String)
    (cached : Option CacheEntry) : HandlerResult :=
  match cached with
  | some entry =>
      if (now : Int) - entry.timestamp < STALE_CACHE_DURATION then
        { response := some (Response.ok entry.data), cache := c
          liveFetchAttempted := true }
      else
        { response := some (Response.ok (mockStockData symbol now))
          cache := c, liveFetchAttempted := true }
  | none =>
      { response := some (Response.ok (mockStockData symbol now))
        cache := c, liveFetchAttempted := true }

/-- Layer 2 of the handler (src/server.js lines 136-156) followed by the
fallback layers when it does not return. fetched is how the awaited
queueApiRequest promise settles: none means it never settles (the await
suspends forever and no response is sent); a fulfilled fetch with truthy
price is cached and returned; any rejection is absorbed by the inner catch
at line 153 and falls through. -/
def liveAndFallback (c : Cache) (now : Nat) (symbol : String)
    (cached : Option CacheEntry)
    (fetched : Option (Except FetchErr RawQuote)) : HandlerResult :=
  match fetched with
  | none => { response := none, cache := c, liveFetchAttempted := true }
  | some (Except.ok q) =>
      if cTruthy q then
        { response := some (Response.ok (buildStockData symbol q))
          cache := cacheSet c symbol
            { data := buildStockData symbol q, timestamp := now }
          liveFetchAttempted := true }
      else fallbackLayers c now symbol cached
  | some (Except.error _) => fallbackLayers c now symbol cached

/-- The GET /api/stock/:symbol handler body (src/server.js lines 122-175):
normalise the symbol, look it up once, serve layer 1 (fresh cache,
age < CACHE_DURATION) without touching the live path, otherwise run layers
2-4. now is Date.now() at request time. -/
def handleStockRequest (c : Cache) (now : Nat) (raw : String)
    (fetched : Option (Except FetchErr RawQuote)) : HandlerResult :=
  match cacheGet c (symbolOf raw) with
  | some entry =>
      if (now : Int) - entry.timestamp < CACHE_DURATION then
        { response := some (Response.ok entry.data), cache := c
          liveFetchAttempted := false }
      else liveAndFallback c now (symbolOf raw) (some entry) fetched
  | none => liveAndFallback c now (symbolOf raw) none fetched

/-- An entry of requestQueue (src/server.js line 115): the symbol plus the
wrapped settle callbacks (the callbacks close over the symbol, so the symbol
determines the entry for the state we track). -/
structure QueueEntry where
  symbol : String
deriving DecidableEq, Repr

/-- The shared mutable state of src/server.js: the cache Map (line 10), the
requestQueue array (line 15), the activeRequests Map tracked by the symbols
it currently holds (line 16), and the limiter counters requestCount and
lastResetTime (lines 23-24). -/
structure ServerState where
  cache : Cache
  requestQueue : List QueueEntry
  activeRequests : List String
  requestCount : Nat
  lastResetTime : Nat
deriving DecidableEq, Repr

/-- What happens to a caller of queueApiRequest (src/server.js lines 85-118):

* attached: symbol already in activeRequests (line 88). The executor does
  return activeRequests.get(symbol) - returning from a Promise executor
  discards the value; neither resolve nor reject of THIS caller's promise is
  invoked, and the executor returns before the timeout of line 97 is
  installed and before this caller's resolve/reject are stored anywhere. No
  shared state is changed.
* queueFull: requestQueue.length >= MAX_QUEUE_SIZE (line 93); the caller's
  promise is rejected immediately with 'Queue is full'; no state change.
* enqueued: a handle (wrappedResolve/wrappedReject) is registered in
  activeRequests and the entry pushed onto requestQueue (lines 113-115). -/
inductive EnqueueResult where
  | attached
  | queueFull
  | enqueued
deriving DecidableEq, Repr

/-- queueApiRequest (src/server.js lines 85-118) as a transition on the shared
state, paired with the caller's fate. Branch order as in the source: the
activeRequests check precedes the queue-size check. -/
def queueApiRequest (st : ServerState) (symbol : String) :
    EnqueueResult × ServerState :=
  if symbol ∈ st.activeRequests then
    (EnqueueResult.attached, st)
  else if MAX_QUEUE_SIZE ≤ st.requestQueue.length then
    (EnqueueResult.queueFull, st)
  else
    (EnqueueResult.enqueued,
      { st with
          activeRequests := symbol :: st.activeRequests
          requestQueue := st.requestQueue ++ [{ symbol := symbol }] })

/-- Whether the promise handed to the caller can ever settle. After attached
the executor has returned without calling resolve or reject and without
storing them (and without arming the line-97 timeout), so by JS promise
semantics that promise stays pending forever. After queueFull it has already
been rejected; after enqueued its wrapped callbacks sit in activeRequests and
requestQueue (and the caller-timeout is armed), so it settles. -/
def callerCanSettle : EnqueueResult → Bool
  | EnqueueResult.attached => false
  | EnqueueResult.queueFull => true
  | EnqueueResult.enqueued => true

/-- The caller-side timeout firing (src/server.js lines 97-99) calls the bare
reject of the caller's promise - not wrappedReject - so it rejects that one
promise and touches none of the shared structures: the queue entry, the
activeRequests handle, the cache and the counters all stay as they were. -/
def callerTimeoutFire (st : ServerState) : ServerState := st

/-- Outcome of the axios upstream call made by the worker. -/
inductive UpstreamOutcome where
  | success (q : RawQuote)
  | failure
deriving DecidableEq, Repr

/-- Observables of one iteration of the processQueue while-loop:
gateWait, the delay the rate gate imposed before dispatch; dispatched,
whether axios.get was invoked; dispatchTime, the instant of that invocation;
postWait, the delay inserted after the call before the next entry. -/
structure StepInfo where
  gateWait : Nat
  dispatched : Bool
  dispatchTime : Nat
  postWait : Nat
deriving DecidableEq, Repr

/-- The rate gate at the top of each processQueue iteration (src/server.js
lines 45-53), at Date.now() = now. Yields (imposed wait, requestCount
afterwards, lastResetTime afterwards). When requestCount has reached
MAX_REQUESTS_PER_MINUTE the worker computes
waitTime = 60000 - (now - lastResetTime); only if waitTime > 0 does it sleep
that long and then set requestCount = 0 and lastResetTime = Date.now(), which
at the wake-up instant equals lastResetTime + 60000; when waitTime <= 0 (the
window is already over-age) it proceeds immediately WITHOUT resetting, so the
counter still equals the maximum while the call is dispatched. -/
def rateGate (requestCount lastResetTime now : Nat) : Nat × Nat × Nat :=
  if MAX_REQUESTS_PER_MINUTE ≤ requestCount then
    if 0 < (60000 : Int) - ((now : Int) - lastResetTime) then
      (((60000 : Int) - ((now : Int) - lastResetTime)).toNat, 0,
        lastResetTime + 60000)
    else (0, requestCount, lastResetTime)
  else (0, requestCount, lastResetTime)

/-- One iteration of the processQueue while-loop (src/server.js lines 43-79),
at Date.now() = now, with outcome the result of the axios call (if made):

* rate gate (lines 45-53): when requestCount >= MAX_REQUESTS_PER_MINUTE,
  waitTime := 60000 - (now - lastResetTime); only if waitTime > 0 does the
  worker sleep that long and then reset requestCount to 0 and lastResetTime
  to the wake-up instant (= lastResetTime + 60000); when waitTime <= 0 the
  iteration proceeds with the counter untouched;
* shift (line 55) pops the head entry;
* missing API key (lines 60-63): reject (the entry's wrappedReject, which
  removes the handle from activeRequests) and continue - no dispatch, no
  counter change, no spacing delay;
* axios.get (line 66): on success requestCount++ and wrappedResolve (removes
  the handle), then sleep REQUEST_INTERVAL if entries remain (lines 72-74);
  on failure wrappedReject (removes the handle), no counter change and NO
  spacing sleep (the catch block at lines 75-78 skips the line-73 wait). -/
def processStep (st : ServerState) (now : Nat) (apiKeyConfigured : Bool)
    (outcome : UpstreamOutcome) : ServerState × StepInfo :=
  match st.requestQueue with
  | [] => (st, { gateWait := 0, dispatched := false, dispatchTime := now, postWait := 0 })
  | entry :: rest =>
      let gateWait := (rateGate st.requestCount st.lastResetTime now).1
      let count1 := (rateGate st.requestCount st.lastResetTime now).2.1
      let reset1 := (rateGate st.requestCount st.lastResetTime now).2.2
      let active1 := st.activeRequests.erase entry.symbol
      if apiKeyConfigured then
        match outcome with
        | UpstreamOutcome.success _ =>
            ({ st with
                requestQueue := rest
                activeRequests := active1
                requestCount := count1 + 1
                lastResetTime := reset1 },
             { gateWait := gateWait, dispatched := true
               dispatchTime := now + gateWait
               postWait := if rest.isEmpty then 0 else REQUEST_INTERVAL })
        | UpstreamOutcome.failure =>
            ({ st with
                requestQueue := rest
                activeRequests := active1
                requestCount := count1
                lastResetTime := reset1 },
             { gateWait := gateWait, dispatched := true
               dispatchTime := now + gateWait
               postWait := 0 })
      else
        ({ st with
            requestQueue := rest
            activeRequests := active1
            requestCount := count1
            lastResetTime := reset1 },
         { gateWait := gateWait, dispatched := false
           dispatchTime := now + gateWait
           postWait := 0 })

/-- Run a sequence of worker iterations; each event supplies the wall-clock
instant at which the iteration starts and the outcome of its upstream call.
Returns the final state and the instants at which upstream calls were
actually dispatched. -/
def runTrace (st : ServerState) (apiKeyConfigured : Bool) :
    List (Nat × UpstreamOutcome) → ServerState × List Nat
  | [] => (st, [])
  | (now, outcome) :: evs =>
      let step := processStep st now apiKeyConfigured outcome
      let tail := runTrace step.1 apiKeyConfigured evs
      (tail.1, (if step.2.dispatched then [step.2.dispatchTime] else []) ++ tail.2)

/-! Concrete sample data used by witnesses and counterexamples. -/

/-- A sample non-mock quote record as the handler would cache it. -/
def aaplData : StockData :=
  { symbol := "AAPL", price := some 25000, change := 100, changePercent := 2
    volume := 1000, lastUpdated := 1700000000, mock := false }

/-- A cache holding aaplData fetched at time 0. -/
def aaplCache : Cache := [("AAPL", { data := aaplData, timestamp := 0 })]

/-- Claim C5: a cache entry younger than the fresh threshold makes
handleStockRequest return exactly that cached record, with the cache
unchanged and the live-fetch step (hence coalescer, queue and limiter)
untouched, whatever the live path would have produced. -/
theorem C5_fresh_hit (c : Cache) (now : Nat) (raw : String)
    (fetched : Option (Except FetchErr RawQuote)) (entry : CacheEntry)
    (hget : cacheGet c (symbolOf raw) = some entry)
    (hfresh : (now : Int) - entry.timestamp < CACHE_DURATION) :
    handleStockRequest c now raw fetched =
      { response := some (Response.ok entry.data), cache := c
        liveFetchAttempted := false } := by
  simp only [handleStockRequest, hget, if_pos hfresh]

/-- Witness for C5_fresh_hit at a concrete fresh cache hit. -/
theorem C5_fresh_hit_witness :
    cacheGet aaplCache (symbolOf "AAPL") = some { data := aaplData, timestamp := 0 } ∧
    ((100 : Nat) : Int) - (0 : Nat) < CACHE_DURATION ∧
    handleStockRequest aaplCache 100 "AAPL" none =
      { response := some (Response.ok aaplData), cache := aaplCache
        liveFetchAttempted := false } :=
  ⟨by decide, by decide,
    C5_fresh_hit aaplCache 100 "AAPL" none { data := aaplData, timestamp := 0 }
      (by decide) (by decide)⟩

/-- Claim C3: whichever of the settling error outcomes (queue full, caller
timeout, missing API key, upstream error, upstream timeout) the live-fetch
step produces, the handler still answers with a 200 quote payload (cached,
stale or mock) - never with the 500 serverError. -/
theorem C3_errors_absorbed (c : Cache) (now : Nat) (raw : String) (e : FetchErr) :
    ∃ d : StockData,
      (handleStockRequest c now raw (some (Except.error e))).response =
        some (Response.ok d) := by
  cases hget : cacheGet c (symbolOf raw) with
  | none =>
      exact ⟨mockStockData (symbolOf raw) now,
        by simp [handleStockRequest, hget, liveAndFallback, fallbackLayers]⟩
  | some entry =>
      by_cases hfresh : (now : Int) - entry.timestamp < CACHE_DURATION
      · exact ⟨entry.data, by simp [handleStockRequest, hget, hfresh]⟩
      · by_cases hstale : (now : Int) - entry.timestamp < STALE_CACHE_DURATION
        · exact ⟨entry.data,
            by simp [handleStockRequest, hget, hfresh, liveAndFallback,
              fallbackLayers, hstale]⟩
        · exact ⟨mockStockData (symbolOf raw) now,
            by simp [handleStockRequest, hget, hfresh, liveAndFallback,
              fallbackLayers, hstale]⟩

/-- Helper: the fallback layers never modify the cache. -/
theorem fallbackLayers_cache (c : Cache) (now : Nat) (symbol : String)
    (cached : Option CacheEntry) : (fallbackLayers c now symbol cached).cache = c := by
  cases cached with
  | none => rfl
  | some entry =>
      by_cases hstale : (now : Int) - entry.timestamp < STALE_CACHE_DURATION <;>
        simp [fallbackLayers, hstale]

/-- Helper: the fallback layers always produce a 200 quote payload. -/
theorem fallbackLayers_ok (c : Cache) (now : Nat) (symbol : String)
    (cached : Option CacheEntry) :
    ∃ d : StockData, (fallbackLayers c now symbol cached).response =
      some (Response.ok d) := by
  cases cached with
  | none => exact ⟨mockStockData symbol now, rfl⟩
  | some entry =>
      by_cases hstale : (now : Int) - entry.timestamp < STALE_CACHE_DURATION
      · exact ⟨entry.data, by simp [fallbackLayers, hstale]⟩
      · exact ⟨mockStockData symbol now, by simp [fallbackLayers, hstale]⟩

/-- Helper: whenever the awaited promise settles (fulfilled or rejected), the
handler answers with some 200 quote payload. -/
theorem handleStockRequest_settled_ok (c : Cache) (now : Nat) (raw : String)
    (r : Except FetchErr RawQuote) :
    ∃ d : StockData,
      (handleStockRequest c now raw (some r)).response = some (Response.ok d) := by
  have hlive : ∀ cached, ∃ d : StockData,
      (liveAndFallback c now (symbolOf raw) cached (some r)).response =
        some (Response.ok d) := by
    intro cached
    cases r with
    | error e => simpa [liveAndFallback] using fallbackLayers_ok c now (symbolOf raw) cached
    | ok q =>
        by_cases hq : cTruthy q
        · exact ⟨buildStockData (symbolOf raw) q, by simp [liveAndFallback, hq]⟩
        · simpa [liveAndFallback, hq] using fallbackLayers_ok c now (symbolOf raw) cached
  cases hget : cacheGet c (symbolOf raw) with
  | none => simpa [handleStockRequest, hget] using hlive none
  | some entry =>
      by_cases hfresh : (now : Int) - entry.timestamp < CACHE_DURATION
      · exact ⟨entry.data, by simp [handleStockRequest, hget, hfresh]⟩
      · simpa [handleStockRequest, hget, hfresh] using hlive (some entry)

/-- Claim C4 counterexample: with a 10-minute-old entry for AAPL and a failing
live fetch, the handler serves the cached record byte-identical to what a
fresh cache hit serves - no degraded flag or any other marking is added (the
only marking in the payload shapes, the mock flag, is false). So the response
is not a synthetic placeholder, but neither is it flagged as degraded. -/
theorem C4_counterexample :
    (handleStockRequest aaplCache 600000 "AAPL"
        (some (Except.error FetchErr.upstreamError))) =
      { response := some (Response.ok aaplData), cache := aaplCache
        liveFetchAttempted := true } ∧
    aaplData.mock = false ∧
    (handleStockRequest aaplCache 600000 "AAPL"
        (some (Except.error FetchErr.upstreamError))).response =
      (handleStockRequest aaplCache 100 "AAPL" none).response := by
  decide

/-- Claim C4 (amended): when the live fetch fails and the entry for the symbol
is at least CACHE_DURATION but less than STALE_CACHE_DURATION old, the
handler returns exactly that cached quote, unchanged and with no degraded
marking (the payload is identical to a fresh-hit payload; degradation is only
logged server-side), and not the synthetic mock placeholder. -/
theorem C4_stale_served_unmarked (c : Cache) (now : Nat) (raw : String)
    (e : FetchErr) (entry : CacheEntry)
    (hget : cacheGet c (symbolOf raw) = some entry)
    (hstale : (CACHE_DURATION : Int) ≤ (now : Int) - entry.timestamp)
    (hnotexp : (now : Int) - entry.timestamp < STALE_CACHE_DURATION) :
    handleStockRequest c now raw (some (Except.error e)) =
      { response := some (Response.ok entry.data), cache := c
        liveFetchAttempted := true } := by
  have hfresh : ¬ ((now : Int) - entry.timestamp < CACHE_DURATION) :=
    not_lt.mpr hstale
  simp [handleStockRequest, hget, hfresh, liveAndFallback, fallbackLayers,
    hnotexp]

/-- Witness for C4_stale_served_unmarked at a concrete stale hit. -/
theorem C4_stale_served_unmarked_witness :
    cacheGet aaplCache (symbolOf "AAPL") =
      some { data := aaplData, timestamp := 0 } ∧
    (CACHE_DURATION : Int) ≤ ((600000 : Nat) : Int) - (0 : Nat) ∧
    ((600000 : Nat) : Int) - (0 : Nat) < STALE_CACHE_DURATION ∧
    handleStockRequest aaplCache 600000 "AAPL"
        (some (Except.error FetchErr.upstreamTimeout)) =
      { response := some (Response.ok aaplData), cache := aaplCache
        liveFetchAttempted := true } :=
  ⟨by decide, by decide, by decide,
    C4_stale_served_unmarked aaplCache 600000 "AAPL" FetchErr.upstreamTimeout
      { data := aaplData, timestamp := 0 } (by decide) (by decide) (by decide)⟩

/-- Claim C6 counterexample: an empty symbol is not surfaced as an
InvalidInput failure. It is silently replaced by the default symbol TSLA and
the request completes through the normal fallback chain with a 200 payload
(here the mock placeholder), not with any error response. -/
theorem C6_counterexample :
    symbolOf "" = "TSLA" ∧
    handleStockRequest [] 0 "" (some (Except.error FetchErr.upstreamError)) =
      { response := some (Response.ok (mockStockData "TSLA" 0)), cache := []
        liveFetchAttempted := true } := by
  decide

/-- Claim C6 (amended): the endpoint performs no input validation at all: an
empty (or absent) symbol is replaced by the default symbol TSLA and handled
by the ordinary fallback chain, producing a 200 quote payload whenever the
live-fetch promise settles; no InvalidInput failure exists on this endpoint,
so the only failure an external caller can ever observe is the catch-all
internal 500. -/
theorem C6_empty_symbol_defaulted (c : Cache) (now : Nat)
    (r : Except FetchErr RawQuote) :
    symbolOf "" = "TSLA" ∧
    ∃ d : StockData,
      (handleStockRequest c now "" (some r)).response = some (Response.ok d) :=
  ⟨by decide, handleStockRequest_settled_ok c now "" r⟩

/-- Claim C9: a fulfilled upstream fetch whose current-price field c is falsy
(absent or zero) is treated exactly like a failed fetch: the handler result
is literally the one a rejected fetch produces - nothing of the payload is
returned - and the cache is left unchanged, so the request falls through to
the stale-cache and mock layers. -/
theorem C9_falsy_price_falls_through (c : Cache) (now : Nat) (raw : String)
    (q : RawQuote) (h : cTruthy q = false) :
    handleStockRequest c now raw (some (Except.ok q)) =
      handleStockRequest c now raw (some (Except.error FetchErr.upstreamError)) ∧
    (handleStockRequest c now raw (some (Except.ok q))).cache = c := by
  have hlive : ∀ cached,
      liveAndFallback c now (symbolOf raw) cached (some (Except.ok q)) =
        liveAndFallback c now (symbolOf raw) cached
          (some (Except.error FetchErr.upstreamError)) := by
    intro cached
    simp [liveAndFallback, h]
  cases hget : cacheGet c (symbolOf raw) with
  | none =>
      refine ⟨by simp [handleStockRequest, hget, hlive none], ?_⟩
      simp [handleStockRequest, hget, liveAndFallback, h, fallbackLayers_cache]
  | some entry =>
      by_cases hfresh : (now : Int) - entry.timestamp < CACHE_DURATION
      · exact ⟨by simp [handleStockRequest, hget, hfresh],
          by simp [handleStockRequest, hget, hfresh]⟩
      · refine ⟨by simp [handleStockRequest, hget, hfresh, hlive (some entry)], ?_⟩
        simp [handleStockRequest, hget, hfresh, liveAndFallback, h,
          fallbackLayers_cache]

/-- Witness for C9_falsy_price_falls_through: upstream returns price 0. -/
theorem C9_falsy_price_falls_through_witness :
    cTruthy { c := some 0, d := none, dp := none, v := none, t := 0 } = false ∧
    (handleStockRequest [] 5 "MSFT"
        (some (Except.ok { c := some 0, d := none, dp := none, v := none, t := 0 })) =
      handleStockRequest [] 5 "MSFT"
        (some (Except.error FetchErr.upstreamError)) ∧
    (handleStockRequest [] 5 "MSFT"
        (some (Except.ok { c := some 0, d := none, dp := none, v := none, t := 0 }))).cache =
      ([] : Cache)) :=
  ⟨by decide,
    C9_falsy_price_falls_through [] 5 "MSFT"
      { c := some 0, d := none, dp := none, v := none, t := 0 } (by decide)⟩

/-- Claim C1 (evaluated at the failing input): a second getQuote for AAPL
arriving while AAPL already has an in-flight handle hits the attach branch of
queueApiRequest. Exactly one upstream fetch stays queued (the branch enqueues
nothing), but the attaching caller is handed a promise on which neither
resolve nor reject will ever be called - the executor returned before the
caller timeout was installed and before the callbacks were stored anywhere -
so the caller never receives the fetch's outcome, contradicting the
coalescing contract that all N callers settle with the same result. -/
theorem C1_attached_caller_never_settles :
    queueApiRequest
        { cache := [], requestQueue := [{ symbol := "AAPL" }]
          activeRequests := ["AAPL"], requestCount := 0, lastResetTime := 0 }
        "AAPL" =
      (EnqueueResult.attached,
        { cache := [], requestQueue := [{ symbol := "AAPL" }]
          activeRequests := ["AAPL"], requestCount := 0, lastResetTime := 0 }) ∧
    callerCanSettle EnqueueResult.attached = false := by
  decide

/-- Claim C7: with the symbol not already coalesced and the queue at (or
beyond) MAX_QUEUE_SIZE pending entries, queueApiRequest rejects the caller
immediately with the queue-full error - the promise settles at once, nothing
blocks - and the whole server state, the queue included, is unchanged. -/
theorem C7_queue_full_rejects (st : ServerState) (symbol : String)
    (hact : symbol ∉ st.activeRequests)
    (hfull : MAX_QUEUE_SIZE ≤ st.requestQueue.length) :
    queueApiRequest st symbol = (EnqueueResult.queueFull, st) ∧
    callerCanSettle EnqueueResult.queueFull = true := by
  exact ⟨by simp [queueApiRequest, hact, hfull], rfl⟩

/-- A state whose queue holds exactly MAX_QUEUE_SIZE pending entries. -/
def fullQueueState : ServerState :=
  { cache := [], requestQueue := List.replicate 100 { symbol := "X" }
    activeRequests := ["X"], requestCount := 0, lastResetTime := 0 }

/-- Witness for C7_queue_full_rejects on a queue of 100 pending entries. -/
theorem C7_queue_full_rejects_witness :
    ("Y" ∉ fullQueueState.activeRequests) ∧
    MAX_QUEUE_SIZE ≤ fullQueueState.requestQueue.length ∧
    (queueApiRequest fullQueueState "Y" = (EnqueueResult.queueFull, fullQueueState) ∧
      callerCanSettle EnqueueResult.queueFull = true) :=
  ⟨by decide, by decide,
    C7_queue_full_rejects fullQueueState "Y" (by decide) (by decide)⟩

/-- A backlog of 51 distinct symbols awaiting dispatch. -/
def overloadState : ServerState :=
  { cache := []
    requestQueue := (List.range 51).map (fun i => { symbol := toString i })
    activeRequests := (List.range 51).map toString
    requestCount := 0, lastResetTime := 0 }

/-- 51 worker iterations, one time unit apart, whose upstream calls all fail. -/
def overloadEvents : List (Nat × UpstreamOutcome) :=
  (List.range 51).map (fun i => (i, UpstreamOutcome.failure))

/-- Claim C2 counterexample: 51 upstream calls - one more than
MAX_REQUESTS_PER_MINUTE - are dispatched inside a single sliding 60000-unit
window. Failed calls never increment requestCount (line 68 runs only on
success), so the counter stays at 0 through the whole burst, the rate gate
never engages, and the error path skips the inter-request spacing; nothing
bounds the dispatch rate once calls fail. -/
theorem C2_counterexample :
    (runTrace overloadState true overloadEvents).2.length = 51 ∧
    MAX_REQUESTS_PER_MINUTE < (runTrace overloadState true overloadEvents).2.length ∧
    (∀ t ∈ (runTrace overloadState true overloadEvents).2, t < 60000) ∧
    (runTrace overloadState true overloadEvents).1.requestCount = 0 := by
  decide

/-- Helper: exact behaviour of the rate gate. The imposed wait is nonzero
exactly when the counter is at the maximum and the window age below 60000;
after such a wait the counter is reset and the window start advances by
60000; the gate itself never increases the counter. -/
theorem rateGate_spec (rc lrt now : Nat) :
    ((rateGate rc lrt now).1 ≠ 0 ↔
      (MAX_REQUESTS_PER_MINUTE ≤ rc ∧ (now : Int) - lrt < 60000)) ∧
    (MAX_REQUESTS_PER_MINUTE ≤ rc → (now : Int) - lrt < 60000 →
      (rateGate rc lrt now).2.1 = 0 ∧ (rateGate rc lrt now).2.2 = lrt + 60000) ∧
    (rateGate rc lrt now).2.1 ≤ rc := by
  unfold rateGate
  by_cases hcnt : MAX_REQUESTS_PER_MINUTE ≤ rc
  · by_cases hage : (0 : Int) < 60000 - ((now : Int) - lrt)
    · rw [if_pos hcnt, if_pos hage]
      refine ⟨⟨fun _ => ⟨hcnt, by omega⟩, fun _ => ?_⟩,
        fun _ _ => ⟨rfl, rfl⟩, Nat.zero_le rc⟩
      show ((60000 : Int) - ((now : Int) - lrt)).toNat ≠ 0
      omega
    · rw [if_pos hcnt, if_neg hage]
      exact ⟨⟨fun hw => absurd rfl hw, fun hw => (by omega : False).elim⟩,
        fun _ hlt => (by omega : False).elim, Nat.le_refl rc⟩
  · rw [if_neg hcnt]
    exact ⟨⟨fun hw => absurd rfl hw, fun hw => absurd hw.1 hcnt⟩,
      fun hle => absurd hle hcnt, Nat.le_refl rc⟩

/-- Claim C2 (amended): what the limiter actually guarantees per worker
iteration. With an entry pending, the upstream call is always dispatched in
the iteration, and the gate delays it (by the remaining window time) exactly
when the counter has reached MAX_REQUESTS_PER_MINUTE while the observed
window age is still below 60000 units; after such a delay the counter is
reset to 0 and the window start moves forward by 60000. When the counter is
at the maximum but the window is already over-age, the call is dispatched
immediately with the counter still at the maximum (the reset is left to the
periodic timer). A failed call never increases the counter, so only
successful calls consume budget and total dispatches in a sliding window are
not bounded by the maximum. -/
theorem C2_gate_amended (st : ServerState) (now : Nat)
    (h : st.requestQueue ≠ []) :
    (processStep st now true UpstreamOutcome.failure).2.dispatched = true ∧
    ((processStep st now true UpstreamOutcome.failure).2.gateWait ≠ 0 ↔
      (MAX_REQUESTS_PER_MINUTE ≤ st.requestCount ∧
        (now : Int) - st.lastResetTime < 60000)) ∧
    (MAX_REQUESTS_PER_MINUTE ≤ st.requestCount →
      (now : Int) - st.lastResetTime < 60000 →
        (processStep st now true UpstreamOutcome.failure).1.requestCount = 0 ∧
        (processStep st now true UpstreamOutcome.failure).1.lastResetTime =
          st.lastResetTime + 60000) ∧
    (processStep st now true UpstreamOutcome.failure).1.requestCount ≤
      st.requestCount := by
  cases hq : st.requestQueue with
  | nil => exact absurd hq h
  | cons entry rest =>
      have hs := rateGate_spec st.requestCount st.lastResetTime now
      refine ⟨by simp [processStep, hq], ?_, ?_, ?_⟩
      · simpa [processStep, hq] using hs.1
      · intro h1 h2
        have hr := hs.2.1 h1 h2
        constructor
        · simpa [processStep, hq] using hr.1
        · simpa [processStep, hq] using hr.2
      · simpa [processStep, hq] using hs.2.2

/-- A worker state with the counter at the maximum, window 1000 units old. -/
def gateStateW : ServerState :=
  { cache := [], requestQueue := [{ symbol := "A" }], activeRequests := ["A"]
    requestCount := 50, lastResetTime := 0 }

/-- Witness for C2_gate_amended at gateStateW and now = 1000. -/
theorem C2_gate_amended_witness :
    gateStateW.requestQueue ≠ [] ∧
    ((processStep gateStateW 1000 true UpstreamOutcome.failure).2.dispatched = true ∧
     ((processStep gateStateW 1000 true UpstreamOutcome.failure).2.gateWait ≠ 0 ↔
       (MAX_REQUESTS_PER_MINUTE ≤ gateStateW.requestCount ∧
         ((1000 : Nat) : Int) - gateStateW.lastResetTime < 60000)) ∧
     (MAX_REQUESTS_PER_MINUTE ≤ gateStateW.requestCount →
       ((1000 : Nat) : Int) - gateStateW.lastResetTime < 60000 →
         (processStep gateStateW 1000 true UpstreamOutcome.failure).1.requestCount = 0 ∧
         (processStep gateStateW 1000 true UpstreamOutcome.failure).1.lastResetTime =
           gateStateW.lastResetTime + 60000) ∧
     (processStep gateStateW 1000 true UpstreamOutcome.failure).1.requestCount ≤
       gateStateW.requestCount) :=
  ⟨by decide, C2_gate_amended gateStateW 1000 (by decide)⟩

/-- Claim C8 counterexample: the upstream call for entry A errors while entry
B is still pending, and the worker imposes NO inter-request delay before
processing B (postWait = 0): the line-73 sleep sits after the successful
resolve inside the try block, and the catch path skips it entirely, so the
claimed wait-even-on-error behaviour does not happen. -/
theorem C8_counterexample :
    (processStep
        { cache := [], requestQueue := [{ symbol := "A" }, { symbol := "B" }]
          activeRequests := ["A", "B"], requestCount := 0, lastResetTime := 0 }
        0 true UpstreamOutcome.failure).2 =
      { gateWait := 0, dispatched := true, dispatchTime := 0, postWait := 0 } ∧
    (processStep
        { cache := [], requestQueue := [{ symbol := "A" }, { symbol := "B" }]
          activeRequests := ["A", "B"], requestCount := 0, lastResetTime := 0 }
        0 true UpstreamOutcome.failure).1.requestQueue = [{ symbol := "B" }] := by
  decide

/-- Claim C8 (amended): the worker waits REQUEST_INTERVAL before the next
entry only after a SUCCESSFUL upstream call and only when further entries
remain; after a call that ends in error it proceeds to the next entry with
no spacing delay at all. -/
theorem C8_postwait_amended (st : ServerState) (now : Nat) (q : RawQuote)
    (h : st.requestQueue ≠ []) :
    (processStep st now true (UpstreamOutcome.success q)).2.postWait =
      (if st.requestQueue.tail.isEmpty then 0 else REQUEST_INTERVAL) ∧
    (processStep st now true UpstreamOutcome.failure).2.postWait = 0 := by
  cases hq : st.requestQueue with
  | nil => exact absurd hq h
  | cons entry rest => constructor <;> simp [processStep, hq]

/-- Witness for C8_postwait_amended: two pending entries, successful call,
wait of REQUEST_INTERVAL = 1200. -/
theorem C8_postwait_amended_witness :
    ({ cache := [], requestQueue := [{ symbol := "A" }, { symbol := "B" }]
       activeRequests := ["A", "B"], requestCount := 0
       lastResetTime := 0 } : ServerState).requestQueue ≠ [] ∧
    ((processStep
        { cache := [], requestQueue := [{ symbol := "A" }, { symbol := "B" }]
          activeRequests := ["A", "B"], requestCount := 0, lastResetTime := 0 }
        0 true (UpstreamOutcome.success
          { c := some 25000, d := some 100, dp := some 2, v := some 1000
            t := 1700000000 })).2.postWait =
      (if ({ cache := [], requestQueue := [{ symbol := "A" }, { symbol := "B" }]
             activeRequests := ["A", "B"], requestCount := 0
             lastResetTime := 0 } : ServerState).requestQueue.tail.isEmpty
        then 0 else REQUEST_INTERVAL) ∧
     (processStep
        { cache := [], requestQueue := [{ symbol := "A" }, { symbol := "B" }]
          activeRequests := ["A", "B"], requestCount := 0, lastResetTime := 0 }
        0 true UpstreamOutcome.failure).2.postWait = 0) :=
  ⟨by decide,
    C8_postwait_amended
      { cache := [], requestQueue := [{ symbol := "A" }, { symbol := "B" }]
        activeRequests := ["A", "B"], requestCount := 0, lastResetTime := 0 }
      0 { c := some 25000, d := some 100, dp := some 2, v := some 1000
          t := 1700000000 } (by decide)⟩

/-- Helper: a handler run whose live fetch settled with a rejection leaves the
cache exactly as it was. -/
theorem handleStockRequest_error_cache (c : Cache) (now : Nat) (raw : String)
    (e : FetchErr) :
    (handleStockRequest c now raw (some (Except.error e))).cache = c := by
  cases hget : cacheGet c (symbolOf raw) with
  | none =>
      simp [handleStockRequest, hget, liveAndFallback, fallbackLayers_cache]
  | some entry =>
      by_cases hfresh : (now : Int) - entry.timestamp < CACHE_DURATION
      · simp [handleStockRequest, hget, hfresh]
      · simp [handleStockRequest, hget, hfresh, liveAndFallback,
          fallbackLayers_cache]

/-- Claim C10: a caller whose 8000 ms timeout fires before its queued fetch
settles. The timeout callback calls the bare reject, so it mutates no shared
state (the queue entry and the in-flight handle survive) - the upstream call
still executes. When the worker then processes the entry: it dispatches, the
settle callbacks remove the symbol's handle from activeRequests, a successful
call still increments requestCount (consuming rate-limit budget), and the
worker itself never writes the cache. The timed-out request's handler, whose
await rejected with the caller timeout, also leaves the cache unchanged - so
the fetched quote is discarded and never stored for later requests. -/
theorem C10_timed_out_caller_frame (st : ServerState) (now : Nat)
    (entry : QueueEntry) (rest : List QueueEntry) (q : RawQuote)
    (c : Cache) (raw : String)
    (hq : st.requestQueue = entry :: rest)
    (hcnt : st.requestCount < MAX_REQUESTS_PER_MINUTE) :
    callerTimeoutFire st = st ∧
    (processStep st now true (UpstreamOutcome.success q)).2.dispatched = true ∧
    (processStep st now true (UpstreamOutcome.success q)).1.activeRequests =
      st.activeRequests.erase entry.symbol ∧
    (processStep st now true (UpstreamOutcome.success q)).1.requestCount =
      st.requestCount + 1 ∧
    (processStep st now true (UpstreamOutcome.success q)).1.cache = st.cache ∧
    (handleStockRequest c now raw
        (some (Except.error FetchErr.requestTimeout))).cache = c := by
  have hgate : rateGate st.requestCount st.lastResetTime now =
      (0, st.requestCount, st.lastResetTime) := by
    unfold rateGate
    rw [if_neg (Nat.not_le.mpr hcnt)]
  refine ⟨rfl, ?_, ?_, ?_, ?_, handleStockRequest_error_cache c now raw
    FetchErr.requestTimeout⟩ <;>
    simp [processStep, hq, hgate]

/-- Witness for C10_timed_out_caller_frame at a concrete state. -/
theorem C10_timed_out_caller_frame_witness :
    ({ cache := aaplCache, requestQueue := [{ symbol := "MSFT" }]
       activeRequests := ["MSFT"], requestCount := 3
       lastResetTime := 0 } : ServerState).requestQueue =
      ({ symbol := "MSFT" } : QueueEntry) :: [] ∧
    (3 : Nat) < MAX_REQUESTS_PER_MINUTE ∧
    (callerTimeoutFire
        { cache := aaplCache, requestQueue := [{ symbol := "MSFT" }]
          activeRequests := ["MSFT"], requestCount := 3, lastResetTime := 0 } =
      { cache := aaplCache, requestQueue := [{ symbol := "MSFT" }]
        activeRequests := ["MSFT"], requestCount := 3, lastResetTime := 0 } ∧
     (processStep
        { cache := aaplCache, requestQueue := [{ symbol := "MSFT" }]
          activeRequests := ["MSFT"], requestCount := 3, lastResetTime := 0 }
        700000 true (UpstreamOutcome.success
          { c := some 30000, d := some 50, dp := some 1, v := some 500
            t := 1700000000 })).2.dispatched = true ∧
     (processStep
        { cache := aaplCache, requestQueue := [{ symbol := "MSFT" }]
          activeRequests := ["MSFT"], requestCount := 3, lastResetTime := 0 }
        700000 true (UpstreamOutcome.success
          { c := some 30000, d := some 50, dp := some 1, v := some 500
            t := 1700000000 })).1.activeRequests =
        (["MSFT"] : List String).erase "MSFT" ∧
     (processStep
        { cache := aaplCache, requestQueue := [{ symbol := "MSFT" }]
          activeRequests := ["MSFT"], requestCount := 3, lastResetTime := 0 }
        700000 true (UpstreamOutcome.success
          { c := some 30000, d := some 50, dp := some 1, v := some 500
            t := 1700000000 })).1.requestCount = 3 + 1 ∧
     (processStep
        { cache := aaplCache, requestQueue := [{ symbol := "MSFT" }]
          activeRequests := ["MSFT"], requestCount := 3, lastResetTime := 0 }
        700000 true (UpstreamOutcome.success
          { c := some 30000, d := some 50, dp := some 1, v := some 500
            t := 1700000000 })).1.cache = aaplCache ∧
     (handleStockRequest aaplCache 700000 "MSFT"
        (some (Except.error FetchErr.requestTimeout))).cache = aaplCache) :=
  ⟨rfl, by decide,
    C10_timed_out_caller_frame
      { cache := aaplCache, requestQueue := [{ symbol := "MSFT" }]
        activeRequests := ["MSFT"], requestCount := 3, lastResetTime := 0 }
      700000 { symbol := "MSFT" } []
      { c := some 30000, d := some 50, dp := some 1, v := some 500
        t := 1700000000 }
      aaplCache "MSFT" rfl (by decide)⟩
